import Mathlib

/-!
Verification of the job lifecycle and distribution subsystem of the
cloudflare-python-workers repository. The definitions below are a shallow
embedding of src/workers/api.py, src/workers/models.py, src/workers/config.py,
src/workers/worker.py and src/workers/utils-worker.py. Redis lists are Lean
lists with the head on the left, MySQL rows are Lean structures, HTTP transport
outcomes are boolean oracles, and the opaque unit of work is an outcome oracle.
-/

namespace Workers

/-! ## Queue model (Redis lists, head on the left)

api.py submission endpoints push with redis lpush; /api/next_task pops with
redis blpop (timeout 0). lpush prepends at the head; blpop removes from the
head. A queue entry is the serialized task envelope, kept opaque as a String.
-/

/-- Redis LPUSH: prepend a value at the head of the list. -/
def lpush (q : List String) (v : String) : List String := v :: q

/-- Redis BLPOP on a single list: remove the head element. The source calls
blpop with timeout 0 (block until an element arrives); none models a pop that
finds the partition empty and would block. -/
def blpop (q : List String) : Option (String × List String) :=
  match q with
  | [] => none
  | v :: rest => some (v, rest)

/-- The Redis keyspace: one list per queue name. -/
abbrev Queues := String → List String

/-- A keyspace with every partition empty. -/
def emptyQueues : Queues := fun _ => []

/-- LPUSH onto the named partition of the keyspace. -/
def pushTo (qs : Queues) (name v : String) : Queues :=
  fun n => if n = name then lpush (qs n) v else qs n

/-- config.get_queue_for_task_type from src/workers/config.py. The Python
argument is Optional and tested for truthiness, so none and the empty string
both fall through to the final else branch. -/
def get_queue_for_task_type (task_type : Option String) : String :=
  let t := task_type.getD ""
  if t = "test" then "tasks:test"
  else if t = "whisper" then "tasks:whisper"
  else if t = "index-tts" then "tasks:index-tts"
  else if t = "voxcpm" then "tasks:voxcpm"
  else if t ≠ "" then "tasks:" ++ t
  else "tasks:all"

/-- Queue name hardcoded in submit_index_tts (api.py line 209). -/
def submit_index_tts_queue : String := "tasks:tts"

/-- Queue name hardcoded in submit_voxcpm_tts (api.py line 282). -/
def submit_voxcpm_queue : String := "tasks:tts"

/-- Queue name hardcoded in the whisper submission endpoints (api.py). -/
def submit_whisper_queue : String := "tasks:whisper"

/-- Queue effect of POST /api/tts/index-tts: lpush the envelope onto the
hardcoded queue name. -/
def submit_index_tts (qs : Queues) (envelope : String) : Queues :=
  pushTo qs submit_index_tts_queue envelope

/-- Queue effect of POST /api/tts/voxcpm. -/
def submit_voxcpm_tts (qs : Queues) (envelope : String) : Queues :=
  pushTo qs submit_voxcpm_queue envelope

/-- Queue effect of POST /api/whisper/audio/url (likewise video/url and
audio/data): lpush onto tasks:whisper. -/
def submit_whisper_audio_url (qs : Queues) (envelope : String) : Queues :=
  pushTo qs submit_whisper_queue envelope

/-- GET /api/next_task: blpop on the partition selected by
get_queue_for_task_type. Returns the popped envelope (none when empty) and the
remaining keyspace. -/
def get_next_task (qs : Queues) (task_type : Option String) :
    Option String × Queues :=
  let queue := get_queue_for_task_type task_type
  match blpop (qs queue) with
  | none => (none, qs)
  | some (v, rest) => (some v, fun n => if n = queue then rest else qs n)

/-! ## Task store (MySQL tasks table, models.py) -/

/-- One row of the tasks table. Column set from the SELECT lists in models.py
(id, status, data, duration, error_msg, retry_time, task_result, task_type);
timestamps are database-managed and irrelevant to the claims, so they are
omitted. data is the opaque JSON payload; task_result is the decoded result
dict, modelled as an association list. -/
structure Task where
  id : String
  data : String
  task_type : String
  status : String
  duration : Option Int
  error_msg : Option String
  retry_time : Int
  task_result : Option (List (String × String))
  deriving DecidableEq

/-- models.insert_task writes only (id, data, task_type). Modelled from the
spec: the tasks table schema (DDL) is not under src/, so the column defaults
come from the spec, which states a submitted task starts with status pending,
retry budget 3, and no result, error or duration. -/
def insert_task (id data task_type : String) : Task :=
  { id := id
    data := data
    task_type := task_type
    status := "pending"
    duration := none
    error_msg := none
    retry_time := 3
    task_result := none }

/-- Body of POST /api/update_task (pydantic UpdateTaskRequest in api.py).
All fields except task_id are Optional with default None. The result field is
declared in the source model but never read by the endpoint. -/
structure UpdateTaskRequest where
  task_id : String
  status : Option String
  result : Option String
  duration : Option Int
  error_msg : Option String
  retry_time : Option Int
  task_result : Option (List (String × String))
  deriving DecidableEq

/-- A request carrying only task_id; the other six fields absent (None). -/
def emptyUpdate (tid : String) : UpdateTaskRequest :=
  ⟨tid, none, none, none, none, none, none⟩

/-- One kwargs entry of the dynamic keyword map passed to models.update_task. -/
inductive TaskField where
  | fstatus : String → TaskField
  | fduration : Int → TaskField
  | ferror : String → TaskField
  | fretry : Int → TaskField
  | fresult : List (String × String) → TaskField
  deriving DecidableEq

/-- The kwargs built by the update_task endpoint (api.py lines 467 to 477):
status, error_msg and task_result are included only when truthy (Python
truthiness: non-empty string, non-empty dict), while duration and retry_time
are included whenever not None, in the source order. -/
def update_task_kwargs (req : UpdateTaskRequest) : List TaskField :=
  (match req.status with
   | some s => if s = "" then [] else [TaskField.fstatus s]
   | none => []) ++
  (match req.duration with
   | some v => [TaskField.fduration v]
   | none => []) ++
  (match req.error_msg with
   | some s => if s = "" then [] else [TaskField.ferror s]
   | none => []) ++
  (match req.retry_time with
   | some v => [TaskField.fretry v]
   | none => []) ++
  (match req.task_result with
   | some m => if m.isEmpty then [] else [TaskField.fresult m]
   | none => [])

/-- SET clause semantics of one kwargs entry on a row. -/
def applyField (t : Task) : TaskField → Task
  | TaskField.fstatus v => { t with status := v }
  | TaskField.fduration v => { t with duration := some v }
  | TaskField.ferror v => { t with error_msg := some v }
  | TaskField.fretry v => { t with retry_time := v }
  | TaskField.fresult v => { t with task_result := some v }

/-- models.update_task viewed on a single row: with no kwargs it returns
without touching the store (the Bool is whether an UPDATE was issued);
otherwise it issues UPDATE ... WHERE id = task_id, which mutates the row only
when the id matches. -/
def models_update_task (t : Task) (task_id : String) (fields : List TaskField) :
    Task × Bool :=
  if fields.isEmpty then (t, false)
  else if t.id = task_id then (fields.foldl applyField t, true)
  else (t, true)

/-- POST /api/update_task acting on a row: build kwargs, then
models.update_task. -/
def api_update_task (t : Task) (req : UpdateTaskRequest) : Task × Bool :=
  models_update_task t req.task_id (update_task_kwargs req)

/-! ## Worker registry (MySQL workers table) -/

/-- One row of the workers table (columns from models.insert_worker);
timestamps are database-managed and omitted. Numeric capability fields are
modelled as Int (their arithmetic is never used). -/
structure WorkerRow where
  id : String
  platform : String
  memory_total : Int
  memory_available : Int
  cpu_count : Int
  cpu_freq : Int
  gpu_info : Option String
  deriving DecidableEq

/-- Body of POST /api/update_worker (pydantic UpdateWorkerRequest). -/
structure UpdateWorkerRequest where
  worker_id : String
  memory_available : Option Int
  deriving DecidableEq

/-- Kwargs entries for models.update_worker; the endpoint only ever adds
memory_available. -/
inductive WorkerField where
  | fmemory_available : Int → WorkerField
  deriving DecidableEq

/-- Kwargs built by the update_worker endpoint (api.py lines 518 to 520):
memory_available is included whenever not None. -/
def update_worker_kwargs (req : UpdateWorkerRequest) : List WorkerField :=
  match req.memory_available with
  | some v => [WorkerField.fmemory_available v]
  | none => []

/-- SET clause semantics of one workers kwargs entry. -/
def applyWorkerField (w : WorkerRow) : WorkerField → WorkerRow
  | WorkerField.fmemory_available v => { w with memory_available := v }

/-- models.update_worker on a single row, analogous to models.update_task. -/
def models_update_worker (w : WorkerRow) (worker_id : String)
    (fields : List WorkerField) : WorkerRow × Bool :=
  if fields.isEmpty then (w, false)
  else if w.id = worker_id then (fields.foldl applyWorkerField w, true)
  else (w, true)

/-- POST /api/update_worker acting on a row. -/
def api_update_worker (w : WorkerRow) (req : UpdateWorkerRequest) :
    WorkerRow × Bool :=
  models_update_worker w req.worker_id (update_worker_kwargs req)

/-- The heartbeat request sent by heartbeat_worker in worker.py (lines 39-43):
worker_id plus the current memory_available. -/
def heartbeat_request (worker_id : String) (mem : Int) : UpdateWorkerRequest :=
  ⟨worker_id, some mem⟩

/-! ## Worker loop (worker.py) -/

/-- Transport oracle: the outcome of the n-th HTTP POST attempt the worker
makes to the dispatcher (true = 2xx, false = raises RequestException). -/
abbrev Net := Nat → Bool

/-- Outcome of one execution attempt of the opaque unit of work (the body of
the try block in run_task; the source stub never raises, the oracle covers the
abstract unit of work the scaffolding is written for). err carries str(e). -/
inductive Outcome where
  | ok : Outcome
  | err : String → Outcome
  deriving DecidableEq

/-- Observable steps of one run_task call. attempt k is the start of
execution attempt k (0-based); sleep s is time.sleep(s); post req delivered
records one update_task_with_retry call for req and whether any of its HTTP
attempts succeeded. -/
inductive Event where
  | attempt : Nat → Event
  | sleep : Nat → Event
  | post : UpdateTaskRequest → Bool → Event
  deriving DecidableEq

/-- Loop body of update_task_with_retry (worker.py lines 13-26): up to fuel
HTTP attempts starting at transport index i, stopping at the first success.
Returns (delivered, number of HTTP attempts made). A 1 second sleep separates
consecutive attempts in the source. -/
def update_task_with_retry_go (net : Net) (i : Nat) : Nat → Bool × Nat
  | 0 => (false, 0)
  | fuel + 1 =>
    if net i then (true, 1)
    else
      let r := update_task_with_retry_go net (i + 1) fuel
      (r.1, r.2 + 1)

/-- update_task_with_retry with its default max_retries=3. -/
def update_task_with_retry (net : Net) (i : Nat) : Bool × Nat :=
  update_task_with_retry_go net i 3

/-- The status=processing acknowledgement update (worker.py line 98). -/
def processingRequest (tid : String) : UpdateTaskRequest :=
  { emptyUpdate tid with status := some "processing" }

/-- The completion update (worker.py lines 125-133): status, duration and the
fixed task_result dict of the stub unit of work. -/
def completedRequest (tid : String) (d : Int) : UpdateTaskRequest :=
  { emptyUpdate tid with
    status := some "completed"
    duration := some d
    task_result := some [("output", "processed"), ("duration", toString d)] }

/-- A terminal failure update (worker.py lines 102-109 and 148-155): status
failed plus error_msg; no duration field is sent. -/
def failedRequest (tid msg : String) : UpdateTaskRequest :=
  { emptyUpdate tid with status := some "failed", error_msg := some msg }

/-- The queue entry run_task receives: task_data.get("id"),
payload, and task_data.get("retry_time", 3). -/
structure TaskEnvelope where
  id : Option String
  payload : List (String × String)
  retry_time : Option Nat
  deriving DecidableEq

/-- Python truthiness of the optional task id (None and "" are falsy). -/
def truthy (o : Option String) : Bool :=
  match o with
  | none => false
  | some s => if s = "" then false else true

/-- The retry loop of run_task (worker.py lines 112-155): for retry in
range(max): attempt the unit of work; on success post the completed update
(guarded by a truthy task id) and break; on error sleep 2 seconds and retry
unless this was the last allowed attempt, in which case post the failed
update carrying str(e). The first argument of the recursion is the number of
remaining iterations, the second the 0-based attempt index. -/
def runLoop (net : Net) (unit : Nat → Outcome) (d : Int) (tid : Option String)
    (i : Nat) : Nat → Nat → List Event
  | 0, _ => []
  | remaining + 1, retry =>
    Event.attempt retry ::
      (match unit retry with
       | Outcome.ok =>
         if truthy tid then
           [Event.post (completedRequest (tid.getD "") d)
             (update_task_with_retry net i).1]
         else []
       | Outcome.err msg =>
         if remaining = 0 then
           if truthy tid then
             [Event.post (failedRequest (tid.getD "") msg)
               (update_task_with_retry net i).1]
           else []
         else
           Event.sleep 2 :: runLoop net unit d tid i remaining (retry + 1))

/-- run_task (worker.py lines 89-155). With a truthy task id it first posts
the processing acknowledgement through update_task_with_retry; if that is not
delivered it posts the fail-fast update with error message
"Failed to start processing" and returns without entering the loop. The
duration argument d stands for the wall clock elapsed time used in the
completed update. -/
def run_task (net : Net) (unit : Nat → Outcome) (d : Int)
    (env : TaskEnvelope) : List Event :=
  let n := env.retry_time.getD 3
  if truthy env.id then
    let tid := env.id.getD ""
    let r1 := update_task_with_retry net 0
    if r1.1 then
      Event.post (processingRequest tid) true :: runLoop net unit d env.id r1.2 n 0
    else
      let r2 := update_task_with_retry net r1.2
      [Event.post (processingRequest tid) false,
       Event.post (failedRequest tid "Failed to start processing") r2.1]
  else
    runLoop net unit d env.id 0 n 0

/-- All update requests run_task sent to the dispatcher, in order. -/
def sentPosts (es : List Event) : List UpdateTaskRequest :=
  es.filterMap fun e =>
    match e with
    | Event.post r _ => some r
    | _ => none

/-- The update requests that were actually delivered to the store. -/
def deliveredPosts (es : List Event) : List UpdateTaskRequest :=
  es.filterMap fun e =>
    match e with
    | Event.post r true => some r
    | _ => none

/-- Number of unit-of-work execution attempts in a trace. -/
def attemptCount (es : List Event) : Nat :=
  (es.filterMap fun e =>
    match e with
    | Event.attempt k => some k
    | _ => none).length

/-- The sleep durations in a trace, in order. -/
def sleepSecs (es : List Event) : List Nat :=
  es.filterMap fun e =>
    match e with
    | Event.sleep s => some s
    | _ => none

/-- Fold a sequence of delivered update requests over a task row through the
update_task endpoint. -/
def applyUpdates (t : Task) (reqs : List UpdateTaskRequest) : Task :=
  reqs.foldl (fun acc r => (api_update_task acc r).1) t

/-- Terminal task statuses. -/
def terminal (s : String) : Prop := s = "completed" ∨ s = "failed"

/-- The cross-field invariant claimed by the spec: a terminal task has exactly
one of task_result and error_msg present; a pending or processing task has
neither. -/
def taskInvariant (t : Task) : Prop :=
  (terminal t.status →
    (t.task_result ≠ none ∧ t.error_msg = none) ∨
    (t.task_result = none ∧ t.error_msg ≠ none)) ∧
  ((t.status = "pending" ∨ t.status = "processing") →
    t.task_result = none ∧ t.error_msg = none)

/-! ## Worker registration -/

/-- Result of a worker's startup registration phase. -/
inductive RegOutcome where
  | registered : Nat → RegOutcome
  | exited : Nat → RegOutcome
  deriving DecidableEq

/-- The module-level registration block of worker.py (lines 63-86, identical
in worker-whisper.py): a single try around the registration POST; on any
exception it logs and calls sys.exit(1). -/
def worker_startup_registration (ok : Bool) : RegOutcome :=
  if ok then RegOutcome.registered 1 else RegOutcome.exited 1

/-- register_worker of utils-worker.py (lines 42-77): while True, attempt the
registration POST; on success break, on failure sleep 5 seconds and retry.
The unbounded loop is unrolled with fuel; on success within the fuel it
returns the number of attempts made and the list of sleep durations. -/
def register_worker_loop (ok : Nat → Bool) (i : Nat) :
    Nat → Option (Nat × List Nat)
  | 0 => none
  | fuel + 1 =>
    if ok i then some (1, [])
    else
      match register_worker_loop ok (i + 1) fuel with
      | none => none
      | some (a, s) => some (a + 1, 5 :: s)

/-! ## Helper lemmas -/

instance (s : String) : Decidable (terminal s) := by
  unfold terminal; infer_instance

instance (t : Task) : Decidable (taskInvariant t) := by
  unfold taskInvariant; infer_instance

@[simp] lemma sentPosts_nil : sentPosts [] = [] := rfl

@[simp] lemma sentPosts_attempt (k : Nat) (es : List Event) :
    sentPosts (Event.attempt k :: es) = sentPosts es := rfl

@[simp] lemma sentPosts_sleep (s : Nat) (es : List Event) :
    sentPosts (Event.sleep s :: es) = sentPosts es := rfl

@[simp] lemma sentPosts_post (r : UpdateTaskRequest) (b : Bool) (es : List Event) :
    sentPosts (Event.post r b :: es) = r :: sentPosts es := rfl

@[simp] lemma deliveredPosts_nil : deliveredPosts [] = [] := rfl

@[simp] lemma deliveredPosts_attempt (k : Nat) (es : List Event) :
    deliveredPosts (Event.attempt k :: es) = deliveredPosts es := rfl

@[simp] lemma deliveredPosts_sleep (s : Nat) (es : List Event) :
    deliveredPosts (Event.sleep s :: es) = deliveredPosts es := rfl

@[simp] lemma deliveredPosts_post (r : UpdateTaskRequest) (b : Bool) (es : List Event) :
    deliveredPosts (Event.post r b :: es) =
      if b then r :: deliveredPosts es else deliveredPosts es := by
  cases b <;> rfl

@[simp] lemma attemptCount_nil : attemptCount [] = 0 := rfl

@[simp] lemma attemptCount_attempt (k : Nat) (es : List Event) :
    attemptCount (Event.attempt k :: es) = attemptCount es + 1 := by
  simp [attemptCount, List.filterMap_cons]

@[simp] lemma attemptCount_sleep (s : Nat) (es : List Event) :
    attemptCount (Event.sleep s :: es) = attemptCount es := rfl

@[simp] lemma attemptCount_post (r : UpdateTaskRequest) (b : Bool) (es : List Event) :
    attemptCount (Event.post r b :: es) = attemptCount es := rfl

@[simp] lemma sleepSecs_nil : sleepSecs [] = [] := rfl

@[simp] lemma sleepSecs_attempt (k : Nat) (es : List Event) :
    sleepSecs (Event.attempt k :: es) = sleepSecs es := rfl

@[simp] lemma sleepSecs_sleep (s : Nat) (es : List Event) :
    sleepSecs (Event.sleep s :: es) = s :: sleepSecs es := rfl

@[simp] lemma sleepSecs_post (r : UpdateTaskRequest) (b : Bool) (es : List Event) :
    sleepSecs (Event.post r b :: es) = sleepSecs es := rfl

lemma truthy_some {t : String} (h : t ≠ "") : truthy (some t) = true := by
  simp [truthy, h]

lemma update_task_with_retry_all_fail {net : Net} (h0 : net 0 = false)
    (h1 : net 1 = false) (h2 : net 2 = false) :
    update_task_with_retry net 0 = (false, 3) := by
  simp [update_task_with_retry, update_task_with_retry_go, h0, h1, h2]

lemma run_task_ack (net : Net) (unit : Nat → Outcome) (d : Int) (t : String)
    (payload : List (String × String)) (rt : Option Nat) (ht : t ≠ "")
    (hp : (update_task_with_retry net 0).1 = true) :
    run_task net unit d ⟨some t, payload, rt⟩ =
      Event.post (processingRequest t) true ::
        runLoop net unit d (some t) (update_task_with_retry net 0).2 (rt.getD 3) 0 := by
  simp [run_task, truthy, ht, hp]

lemma run_task_no_ack (net : Net) (unit : Nat → Outcome) (d : Int) (t : String)
    (payload : List (String × String)) (rt : Option Nat) (ht : t ≠ "")
    (hp : (update_task_with_retry net 0).1 = false) :
    run_task net unit d ⟨some t, payload, rt⟩ =
      [Event.post (processingRequest t) false,
       Event.post (failedRequest t "Failed to start processing")
         (update_task_with_retry net (update_task_with_retry net 0).2).1] := by
  simp [run_task, truthy, ht, hp]

lemma runLoop_fail_spec (net : Net) (unit : Nat → Outcome) (d : Int)
    (t : String) (i : Nat) (msg : Nat → String) (ht : t ≠ "") :
    ∀ rem retry,
      (∀ j, retry ≤ j → j < retry + (rem + 1) → unit j = Outcome.err (msg j)) →
      attemptCount (runLoop net unit d (some t) i (rem + 1) retry) = rem + 1 ∧
      sleepSecs (runLoop net unit d (some t) i (rem + 1) retry) =
        List.replicate rem 2 ∧
      sentPosts (runLoop net unit d (some t) i (rem + 1) retry) =
        [failedRequest t (msg (retry + rem))] := by
  intro rem
  induction rem with
  | zero =>
    intro retry hw
    have hu : unit retry = Outcome.err (msg retry) := hw retry (le_refl _) (by omega)
    simp [runLoop, hu, truthy_some ht]
  | succ r ih =>
    intro retry hw
    have hu : unit retry = Outcome.err (msg retry) := hw retry (le_refl _) (by omega)
    have hw2 : ∀ j, retry + 1 ≤ j → j < (retry + 1) + (r + 1) →
        unit j = Outcome.err (msg j) := by
      intro j hj1 hj2
      exact hw j (by omega) (by omega)
    obtain ⟨ha, hs, hp⟩ := ih (retry + 1) hw2
    have harith : retry + 1 + r = retry + (r + 1) := by omega
    rw [harith] at hp
    have hstep : runLoop net unit d (some t) i (r + 1 + 1) retry =
        Event.attempt retry :: Event.sleep 2 ::
          runLoop net unit d (some t) i (r + 1) (retry + 1) := by
      simp [runLoop, hu]
    rw [hstep]
    refine ⟨by simp [ha], ?_, by simp [hp]⟩
    simp [hs, List.replicate_succ]

lemma runLoop_success_spec (net : Net) (unit : Nat → Outcome) (d : Int)
    (t : String) (i : Nat) (msg : Nat → String) (ht : t ≠ "") :
    ∀ rem retry k, retry ≤ k → k < retry + rem →
      (∀ j, retry ≤ j → j < k → unit j = Outcome.err (msg j)) →
      unit k = Outcome.ok →
      attemptCount (runLoop net unit d (some t) i rem retry) = k - retry + 1 ∧
      sleepSecs (runLoop net unit d (some t) i rem retry) =
        List.replicate (k - retry) 2 ∧
      sentPosts (runLoop net unit d (some t) i rem retry) = [completedRequest t d] := by
  intro rem
  induction rem with
  | zero =>
    intro retry k h1 h2 _ _
    omega
  | succ r ih =>
    intro retry k h1 h2 hw hok
    by_cases hk : retry = k
    · subst hk
      simp [runLoop, hok, truthy_some ht]
    · have hlt : retry < k := by omega
      have hu : unit retry = Outcome.err (msg retry) := hw retry (le_refl _) hlt
      cases r with
      | zero => omega
      | succ r2 =>
        have hw2 : ∀ j, retry + 1 ≤ j → j < k → unit j = Outcome.err (msg j) := by
          intro j hj1 hj2
          exact hw j (by omega) hj2
        obtain ⟨ha, hs, hp⟩ := ih (retry + 1) k (by omega) (by omega) hw2 hok
        have harith2 : k - retry = (k - (retry + 1)) + 1 := by omega
        have hstep : runLoop net unit d (some t) i (r2 + 1 + 1) retry =
            Event.attempt retry :: Event.sleep 2 ::
              runLoop net unit d (some t) i (r2 + 1) (retry + 1) := by
          simp [runLoop, hu]
        rw [hstep]
        refine ⟨?_, ?_, ?_⟩
        · simp [ha]
          omega
        · rw [harith2]
          simp [hs, List.replicate_succ]
        · simp [hp]

lemma runLoop_not_truthy_sent (net : Net) (unit : Nat → Outcome) (d : Int)
    (tid : Option String) (i : Nat) (h : truthy tid = false) :
    ∀ rem retry, sentPosts (runLoop net unit d tid i rem retry) = [] := by
  intro rem
  induction rem with
  | zero => intro retry; rfl
  | succ r ih =>
    intro retry
    cases hu : unit retry with
    | ok => simp [runLoop, hu, h]
    | err m =>
      cases r with
      | zero => simp [runLoop, hu, h]
      | succ r2 =>
        have hstep : runLoop net unit d tid i (r2 + 1 + 1) retry =
            Event.attempt retry :: Event.sleep 2 ::
              runLoop net unit d tid i (r2 + 1) (retry + 1) := by
          simp [runLoop, hu]
        rw [hstep]
        simp [ih (retry + 1)]

lemma deliveredPosts_of_sentPosts_nil :
    ∀ es : List Event, sentPosts es = [] → deliveredPosts es = [] := by
  intro es
  induction es with
  | nil => intro _; rfl
  | cons e es ih =>
    intro h
    cases e with
    | attempt k => simpa using ih (by simpa using h)
    | sleep s => simpa using ih (by simpa using h)
    | post r b => simp at h

lemma runLoop_delivered_shape (net : Net) (unit : Nat → Outcome) (d : Int)
    (t : String) (i : Nat) (ht : t ≠ "") :
    ∀ rem retry,
      deliveredPosts (runLoop net unit d (some t) i rem retry) = [] ∨
      deliveredPosts (runLoop net unit d (some t) i rem retry) =
        [completedRequest t d] ∨
      ∃ m, (∃ j, unit j = Outcome.err m) ∧
        deliveredPosts (runLoop net unit d (some t) i rem retry) =
          [failedRequest t m] := by
  intro rem
  induction rem with
  | zero => intro retry; exact Or.inl rfl
  | succ r ih =>
    intro retry
    cases hu : unit retry with
    | ok =>
      cases hb : (update_task_with_retry net i).1 with
      | false => exact Or.inl (by simp [runLoop, hu, truthy_some ht, hb])
      | true => exact Or.inr (Or.inl (by simp [runLoop, hu, truthy_some ht, hb]))
    | err m =>
      cases r with
      | zero =>
        cases hb : (update_task_with_retry net i).1 with
        | false => exact Or.inl (by simp [runLoop, hu, truthy_some ht, hb])
        | true =>
          refine Or.inr (Or.inr ⟨m, ⟨retry, hu⟩, ?_⟩)
          simp [runLoop, hu, truthy_some ht, hb]
      | succ r2 =>
        have hstep : runLoop net unit d (some t) i (r2 + 1 + 1) retry =
            Event.attempt retry :: Event.sleep 2 ::
              runLoop net unit d (some t) i (r2 + 1) (retry + 1) := by
          simp [runLoop, hu]
        rw [hstep]
        simpa using ih (retry + 1)

lemma api_processing (t : Task) (tid : String) (hid : t.id = tid) :
    (api_update_task t (processingRequest tid)).1 =
      { t with status := "processing" } := by
  simp [api_update_task, models_update_task, update_task_kwargs, processingRequest,
    emptyUpdate, applyField, hid]

lemma api_completed (t : Task) (tid : String) (d : Int) (hid : t.id = tid) :
    (api_update_task t (completedRequest tid d)).1 =
      { t with
        status := "completed"
        duration := some d
        task_result := some [("output", "processed"), ("duration", toString d)] } := by
  simp [api_update_task, models_update_task, update_task_kwargs, completedRequest,
    emptyUpdate, applyField, hid]

lemma api_failed (t : Task) (tid msg : String) (hid : t.id = tid) (hm : msg ≠ "") :
    (api_update_task t (failedRequest tid msg)).1 =
      { t with
        status := "failed"
        error_msg := some msg } := by
  simp [api_update_task, models_update_task, update_task_kwargs, failedRequest,
    emptyUpdate, applyField, hid, hm]

lemma run_task_id_falsy (net : Net) (unit : Nat → Outcome) (d : Int)
    (tid : Option String) (payload : List (String × String)) (rt : Option Nat)
    (h : truthy tid = false) :
    run_task net unit d ⟨tid, payload, rt⟩ =
      runLoop net unit d tid 0 (rt.getD 3) 0 := by
  simp [run_task, h]

lemma invariant_insert (tid data ttype : String) :
    taskInvariant (insert_task tid data ttype) := by
  constructor
  · intro h
    rcases h with h | h <;> simp [insert_task] at h
  · intro _
    exact ⟨rfl, rfl⟩

lemma invariant_processing (tid data ttype : String) :
    taskInvariant { insert_task tid data ttype with status := "processing" } := by
  constructor
  · intro h
    rcases h with h | h <;> simp [insert_task] at h
  · intro _
    exact ⟨rfl, rfl⟩

lemma invariant_completed (tid data ttype : String) (d : Int) :
    taskInvariant
      { { insert_task tid data ttype with status := "processing" } with
        status := "completed"
        duration := some d
        task_result := some [("output", "processed"), ("duration", toString d)] } := by
  constructor
  · intro _
    exact Or.inl ⟨by simp, rfl⟩
  · intro h
    rcases h with h | h <;> simp [insert_task] at h

lemma invariant_failed_after_processing (tid data ttype m : String) :
    taskInvariant
      { { insert_task tid data ttype with status := "processing" } with
        status := "failed"
        error_msg := some m } := by
  constructor
  · intro _
    exact Or.inr ⟨rfl, by simp⟩
  · intro h
    rcases h with h | h <;> simp [insert_task] at h

lemma invariant_failed_start (tid data ttype m : String) :
    taskInvariant
      { insert_task tid data ttype with
        status := "failed"
        error_msg := some m } := by
  constructor
  · intro _
    exact Or.inr ⟨rfl, by simp⟩
  · intro h
    rcases h with h | h <;> simp [insert_task] at h

/-! ## Claims -/

/-- C1: the claim states FIFO delivery within a partition (entry A pushed
before entry B is popped first by a single consumer). The code violates it:
the submission endpoints push with lpush and next_task pops with blpop, both
of which operate on the head of the Redis list, so after pushing A then B to
the whisper partition a pop returns B, the newer entry. -/
theorem c1_queue_pops_newest_first :
    (get_next_task (submit_whisper_audio_url
        (submit_whisper_audio_url emptyQueues "A") "B") (some "whisper")).1 =
      some "B" ∧ (some "B" : Option String) ≠ some "A" := by
  exact ⟨by decide, by decide⟩

/-- C2: the claim states the partition written by a submission with task_type
t equals the partition read by a pop for t. The code violates it for
index-tts (and voxcpm): submit_index_tts pushes to the hardcoded queue
"tasks:tts" while get_next_task with task_type index-tts reads
config.get_queue_for_task_type index-tts = "tasks:index-tts", so the pop
finds nothing even right after a submission. -/
theorem c2_index_tts_partition_mismatch :
    submit_index_tts_queue = "tasks:tts" ∧
    get_queue_for_task_type (some "index-tts") = "tasks:index-tts" ∧
    submit_index_tts_queue ≠ get_queue_for_task_type (some "index-tts") ∧
    (get_next_task (submit_index_tts emptyQueues "E") (some "index-tts")).1 =
      none := by
  exact ⟨rfl, by decide, by decide, by decide⟩

/-- C3 counterexample: the claim states the fail-fast error message equals
"failed to start processing", but the only failure report run_task sends in
the fail-fast path carries the capitalized message
"Failed to start processing", which is a different string. -/
theorem c3_counterexample_message_capitalization :
    sentPosts (run_task (fun _ => false) (fun _ => Outcome.ok) 0
        ⟨some "t", [], some 3⟩) =
      [processingRequest "t", failedRequest "t" "Failed to start processing"] ∧
    (failedRequest "t" "Failed to start processing").error_msg =
      some "Failed to start processing" ∧
    "Failed to start processing" ≠ "failed to start processing" := by
  exact ⟨by decide, rfl, by decide⟩

/-- C3 (amended: the message is capitalized "Failed to start processing"):
when all 3 transport attempts of the status=processing acknowledgement fail,
run_task makes zero execution attempts and its whole trace is the failed
acknowledgement followed by one failure report whose error_msg is
"Failed to start processing"; it returns before the execution loop. -/
theorem c3_fail_fast_amended (net : Net) (unit : Nat → Outcome) (d : Int)
    (t : String) (payload : List (String × String)) (rt : Option Nat)
    (ht : t ≠ "") (h0 : net 0 = false) (h1 : net 1 = false)
    (h2 : net 2 = false) :
    attemptCount (run_task net unit d ⟨some t, payload, rt⟩) = 0 ∧
    run_task net unit d ⟨some t, payload, rt⟩ =
      [Event.post (processingRequest t) false,
       Event.post (failedRequest t "Failed to start processing")
         (update_task_with_retry net 3).1] := by
  have hall := update_task_with_retry_all_fail h0 h1 h2
  have h := run_task_no_ack net unit d t payload rt ht (by rw [hall])
  rw [hall] at h
  exact ⟨by rw [h]; rfl, h⟩

/-- C3 witness: concrete instance of the amended fail-fast theorem with a
transport oracle that always fails. -/
theorem c3_fail_fast_witness :
    ("t" : String) ≠ "" ∧
    attemptCount (run_task (fun _ => false) (fun _ => Outcome.ok) 0
      ⟨some "t", [], some 3⟩) = 0 :=
  ⟨by decide,
   (c3_fail_fast_amended (fun _ => false) (fun _ => Outcome.ok) 0 "t" [] (some 3)
     (by decide) rfl rfl rfl).1⟩

/-- C4: the claim states completed and failed are terminal and no operation
changes the status afterwards. The update_task endpoint enforces nothing: an
update request carrying status pending, applied to a task previously driven
to completed, overwrites the terminal status. -/
theorem c4_terminal_status_overwritten :
    ((api_update_task (insert_task "t" "p" "test")
        ⟨"t", some "completed", none, none, none, none,
          some [("output", "processed")]⟩).1).status = "completed" ∧
    ((api_update_task ((api_update_task (insert_task "t" "p" "test")
        ⟨"t", some "completed", none, none, none, none,
          some [("output", "processed")]⟩).1)
        ⟨"t", some "pending", none, none, none, none, none⟩).1).status =
      "pending" := by
  exact ⟨by decide, by decide⟩

/-- C5 counterexample: the claim ranges over every task record reachable by
the system's operations, and the update_task endpoint is such an operation:
one request setting only status completed on a fresh pending task yields a
completed record with neither result nor error_message present. -/
theorem c5_counterexample_completed_without_result :
    ¬ taskInvariant ((api_update_task (insert_task "t" "p" "test")
        ⟨"t", some "completed", none, none, none, none, none⟩).1) ∧
    ((api_update_task (insert_task "t" "p" "test")
        ⟨"t", some "completed", none, none, none, none, none⟩).1).status =
      "completed" ∧
    ((api_update_task (insert_task "t" "p" "test")
        ⟨"t", some "completed", none, none, none, none, none⟩).1).task_result =
      none ∧
    ((api_update_task (insert_task "t" "p" "test")
        ⟨"t", some "completed", none, none, none, none, none⟩).1).error_msg =
      none := by
  exact ⟨by decide, by decide, by decide, by decide⟩

/-- C5 (amended: the invariant holds for the task records produced by
submission followed by a worker run_task execution whose failing unit
outcomes carry non-empty error descriptions; the store and the update_task
endpoint themselves do not enforce it): after any prefix of the delivered
status updates of one run_task execution is applied to the freshly inserted
task, the record satisfies the terminal exactly-one and non-terminal neither
invariant. -/
theorem c5_worker_trace_invariant (net : Net) (unit : Nat → Outcome) (d : Int)
    (tid data ttype : String) (payload : List (String × String))
    (rt : Option Nat) (k : Nat)
    (hmsg : ∀ j m, unit j = Outcome.err m → m ≠ "") :
    taskInvariant (applyUpdates (insert_task tid data ttype)
      ((deliveredPosts (run_task net unit d ⟨some tid, payload, rt⟩)).take k)) := by
  by_cases htid : tid = ""
  · subst htid
    have h0 : truthy (some "") = false := by decide
    rw [run_task_id_falsy net unit d (some "") payload rt h0]
    rw [deliveredPosts_of_sentPosts_nil _
      (runLoop_not_truthy_sent net unit d (some "") 0 h0 (rt.getD 3) 0)]
    simpa [applyUpdates] using invariant_insert "" data ttype
  · cases hack : (update_task_with_retry net 0).1 with
    | false =>
      rw [run_task_no_ack net unit d tid payload rt htid hack]
      cases hb : (update_task_with_retry net (update_task_with_retry net 0).2).1 with
      | false =>
        simpa [applyUpdates] using invariant_insert tid data ttype
      | true =>
        have hd : deliveredPosts [Event.post (processingRequest tid) false,
            Event.post (failedRequest tid "Failed to start processing") true] =
          [failedRequest tid "Failed to start processing"] := rfl
        rw [hd]
        cases k with
        | zero => simpa [applyUpdates] using invariant_insert tid data ttype
        | succ k1 =>
          have htake : ([failedRequest tid "Failed to start processing"]).take
              (k1 + 1) = [failedRequest tid "Failed to start processing"] := by
            simp
          rw [htake]
          simp only [applyUpdates, List.foldl]
          rw [api_failed (insert_task tid data ttype) tid _ rfl (by decide)]
          exact invariant_failed_start tid data ttype _
    | true =>
      rw [run_task_ack net unit d tid payload rt htid hack]
      have hcons : deliveredPosts (Event.post (processingRequest tid) true ::
          runLoop net unit d (some tid) (update_task_with_retry net 0).2
            (rt.getD 3) 0) =
        processingRequest tid :: deliveredPosts (runLoop net unit d (some tid)
          (update_task_with_retry net 0).2 (rt.getD 3) 0) := by
        simp
      rw [hcons]
      rcases runLoop_delivered_shape net unit d tid
          (update_task_with_retry net 0).2 htid (rt.getD 3) 0 with
        hsh | hsh | ⟨m, ⟨j, hj⟩, hsh⟩
      · rw [hsh]
        cases k with
        | zero => simpa [applyUpdates] using invariant_insert tid data ttype
        | succ k1 =>
          have htake : ([processingRequest tid]).take (k1 + 1) =
              [processingRequest tid] := by simp
          rw [htake]
          simp only [applyUpdates, List.foldl]
          rw [api_processing (insert_task tid data ttype) tid rfl]
          exact invariant_processing tid data ttype
      · rw [hsh]
        cases k with
        | zero => simpa [applyUpdates] using invariant_insert tid data ttype
        | succ k1 =>
          cases k1 with
          | zero =>
            simp only [List.take, applyUpdates, List.foldl]
            rw [api_processing (insert_task tid data ttype) tid rfl]
            exact invariant_processing tid data ttype
          | succ k2 =>
            have htake : ([processingRequest tid, completedRequest tid d]).take
                (k2 + 1 + 1) =
              [processingRequest tid, completedRequest tid d] := by simp
            rw [htake]
            simp only [applyUpdates, List.foldl]
            rw [api_processing (insert_task tid data ttype) tid rfl]
            rw [api_completed _ tid d rfl]
            exact invariant_completed tid data ttype d
      · rw [hsh]
        have hm : m ≠ "" := hmsg j m hj
        cases k with
        | zero => simpa [applyUpdates] using invariant_insert tid data ttype
        | succ k1 =>
          cases k1 with
          | zero =>
            simp only [List.take, applyUpdates, List.foldl]
            rw [api_processing (insert_task tid data ttype) tid rfl]
            exact invariant_processing tid data ttype
          | succ k2 =>
            have htake : ([processingRequest tid, failedRequest tid m]).take
                (k2 + 1 + 1) = [processingRequest tid, failedRequest tid m] := by
              simp
            rw [htake]
            simp only [applyUpdates, List.foldl]
            rw [api_processing (insert_task tid data ttype) tid rfl]
            rw [api_failed _ tid m rfl hm]
            exact invariant_failed_after_processing tid data ttype m

/-- C5 witness: concrete instance of the amended invariant theorem with a
unit of work that always fails with the non-empty message boom. -/
theorem c5_worker_trace_witness :
    taskInvariant (applyUpdates (insert_task "t" "p" "test")
      ((deliveredPosts (run_task (fun _ => true) (fun _ => Outcome.err "boom")
        7 ⟨some "t", [], some 2⟩)).take 2)) :=
  c5_worker_trace_invariant (fun _ => true) (fun _ => Outcome.err "boom") 7
    "t" "p" "test" [] (some 2) 2
    (by
      intro j m h
      injection h with h2
      subst h2
      decide)

/-- C6: run_task reads the retry budget from the entry (retry_time field,
default 3). With a truthy task id and a delivered processing acknowledgement:
if the unit of work fails on every attempt, exactly n attempts occur (0-based
indices 0 to n-1), exactly n-1 sleeps of 2 seconds separate them, and the
only updates ever sent are the processing acknowledgement and one final
failed update carrying the last attempt's error; if the unit first succeeds
at 0-based attempt index k (the (k+1)-st attempt, with k+1 at most n),
exactly k+1 attempts occur, k sleeps of 2 seconds, and the only updates sent
are the processing acknowledgement and one completed update. -/
theorem c6_retry_policy (net : Net) (unit : Nat → Outcome) (d : Int)
    (t : String) (payload : List (String × String)) (rt : Option Nat)
    (msg : Nat → String) (n : Nat)
    (ht : t ≠ "") (hn : rt.getD 3 = n)
    (hp : (update_task_with_retry net 0).1 = true) :
    ((∀ j, j < n → unit j = Outcome.err (msg j)) → 0 < n →
      attemptCount (run_task net unit d ⟨some t, payload, rt⟩) = n ∧
      sleepSecs (run_task net unit d ⟨some t, payload, rt⟩) =
        List.replicate (n - 1) 2 ∧
      sentPosts (run_task net unit d ⟨some t, payload, rt⟩) =
        [processingRequest t, failedRequest t (msg (n - 1))]) ∧
    (∀ k, k < n → (∀ j, j < k → unit j = Outcome.err (msg j)) →
      unit k = Outcome.ok →
      attemptCount (run_task net unit d ⟨some t, payload, rt⟩) = k + 1 ∧
      sleepSecs (run_task net unit d ⟨some t, payload, rt⟩) =
        List.replicate k 2 ∧
      sentPosts (run_task net unit d ⟨some t, payload, rt⟩) =
        [processingRequest t, completedRequest t d]) := by
  have hr := run_task_ack net unit d t payload rt ht hp
  rw [hn] at hr
  constructor
  · intro hfail hpos
    obtain ⟨n0, rfl⟩ : ∃ n0, n = n0 + 1 := ⟨n - 1, by omega⟩
    obtain ⟨ha, hs, hq⟩ := runLoop_fail_spec net unit d t
      (update_task_with_retry net 0).2 msg ht n0 0
      (fun j _ hj2 => hfail j (by omega))
    rw [hr]
    simp only [Nat.zero_add] at hq
    simp [ha, hs, hq]
  · intro k hk hw hok
    obtain ⟨ha, hs, hq⟩ := runLoop_success_spec net unit d t
      (update_task_with_retry net 0).2 msg ht n 0 k (by omega) (by omega)
      (fun j _ hj => hw j hj) hok
    rw [hr]
    simp only [Nat.sub_zero] at ha hs
    simp [ha, hs, hq]

/-- C6 witness: concrete instances of both parts of the retry policy theorem,
one with a unit that always fails (budget 2: two attempts, one 2-second
sleep), one with a unit that fails once then succeeds (budget 3: two
attempts). -/
theorem c6_retry_policy_witness :
    ("t" : String) ≠ "" ∧
    attemptCount (run_task (fun _ => true) (fun _ => Outcome.err "boom") 0
      ⟨some "t", [], some 2⟩) = 2 ∧
    attemptCount (run_task (fun _ => true)
      (fun j => if j = 0 then Outcome.err "boom" else Outcome.ok) 0
      ⟨some "t", [], some 3⟩) = 2 :=
  ⟨by decide,
   ((c6_retry_policy (fun _ => true) (fun _ => Outcome.err "boom") 0 "t" []
      (some 2) (fun _ => "boom") 2 (by decide) rfl rfl).1
      (fun j _ => rfl) (by decide)).1,
   ((c6_retry_policy (fun _ => true)
      (fun j => if j = 0 then Outcome.err "boom" else Outcome.ok) 0 "t" []
      (some 3) (fun _ => "boom") 3 (by decide) rfl rfl).2 1 (by decide)
      (by decide) (by decide)).1⟩

/-- C7 counterexample: the claim states a registration failure never
terminates the worker process, but the module-level registration block of
worker.py exits the process with code 1 after a single failed attempt. -/
theorem c7_counterexample_startup_exit :
    worker_startup_registration false = RegOutcome.exited 1 ∧
    ∀ a, worker_startup_registration false ≠ RegOutcome.registered a := by
  exact ⟨rfl, by intro a h; cases h⟩

/-- Helper for C7: the utils-worker registration loop started at index i. -/
lemma register_worker_loop_spec (ok : Nat → Bool) :
    ∀ k i, ok (i + k) = true → (∀ j, i ≤ j → j < i + k → ok j = false) →
      register_worker_loop ok i (k + 1) = some (k + 1, List.replicate k 5) := by
  intro k
  induction k with
  | zero =>
    intro i hk _
    simp only [Nat.add_zero] at hk
    simp [register_worker_loop, hk]
  | succ k0 ih =>
    intro i hk hbefore
    have hi : ok i = false := hbefore i (le_refl _) (by omega)
    have hk2 : ok (i + 1 + k0) = true := by
      have : i + 1 + k0 = i + (k0 + 1) := by omega
      rw [this]
      exact hk
    have hb2 : ∀ j, i + 1 ≤ j → j < i + 1 + k0 → ok j = false := by
      intro j hj1 hj2
      exact hbefore j (by omega) (by omega)
    have hrec := ih (i + 1) hk2 hb2
    have hstep : register_worker_loop ok i (k0 + 1 + 1) =
        if ok i = true then some (1, []) else
          match register_worker_loop ok (i + 1) (k0 + 1) with
          | none => none
          | some (a, s) => some (a + 1, 5 :: s) := rfl
    rw [hstep, hrec]
    simp [hi, List.replicate_succ]

/-- C7 (amended: register_worker in utils-worker.py does retry indefinitely
with a fixed 5 second delay and never exits, but the inline module-level
registration of worker.py and worker-whisper.py makes a single attempt and
terminates the process via sys.exit(1) on failure): if the first successful
attempt is attempt index k, the retry loop registers after exactly k+1
attempts with k sleeps of 5 seconds; the inline variant registers on success
and exits on failure. -/
theorem c7_registration_amended (ok : Nat → Bool) (k : Nat)
    (hk : ok k = true) (hbefore : ∀ j, j < k → ok j = false) :
    register_worker_loop ok 0 (k + 1) = some (k + 1, List.replicate k 5) ∧
    worker_startup_registration true = RegOutcome.registered 1 ∧
    worker_startup_registration false = RegOutcome.exited 1 := by
  refine ⟨?_, rfl, rfl⟩
  exact register_worker_loop_spec ok k 0 (by simpa using hk)
    (fun j _ hj => hbefore j (by omega))

/-- C7 witness: concrete instance with two failing attempts followed by a
successful one. -/
theorem c7_registration_witness :
    (fun j => decide (2 ≤ j)) 2 = true ∧
    register_worker_loop (fun j => decide (2 ≤ j)) 0 3 =
      some (3, List.replicate 2 5) :=
  ⟨by decide,
   (c7_registration_amended (fun j => decide (2 ≤ j)) 2 (by decide)
     (by decide)).1⟩

/-- C8 counterexample: the claim states duration is set on the failed
transition as well, but the failed update the worker persists after
exhausting the budget carries status and error_msg only; its duration field
is absent. -/
theorem c8_counterexample_no_duration :
    sentPosts (run_task (fun _ => true) (fun _ => Outcome.err "boom") 7
        ⟨some "t", [], some 1⟩) =
      [processingRequest "t", failedRequest "t" "boom"] ∧
    (failedRequest "t" "boom").duration = none := by
  exact ⟨by decide, rfl⟩

/-- C8 (amended: the failed update sets status failed and error_msg to the
last error's description but carries no duration; duration is only sent on
the completed transition): after exhausting the budget the worker sends
exactly the processing acknowledgement and one failed update whose error_msg
is the last attempt's error and whose duration is absent, while the completed
update does carry a duration. -/
theorem c8_failed_update_amended (net : Net) (unit : Nat → Outcome) (d : Int)
    (t : String) (payload : List (String × String)) (rt : Option Nat)
    (msg : Nat → String) (n : Nat)
    (ht : t ≠ "") (hn : rt.getD 3 = n)
    (hp : (update_task_with_retry net 0).1 = true)
    (hfail : ∀ j, j < n → unit j = Outcome.err (msg j)) (hpos : 0 < n) :
    sentPosts (run_task net unit d ⟨some t, payload, rt⟩) =
      [processingRequest t, failedRequest t (msg (n - 1))] ∧
    (failedRequest t (msg (n - 1))).status = some "failed" ∧
    (failedRequest t (msg (n - 1))).error_msg = some (msg (n - 1)) ∧
    (failedRequest t (msg (n - 1))).duration = none ∧
    (completedRequest t d).duration = some d := by
  have hr := run_task_ack net unit d t payload rt ht hp
  rw [hn] at hr
  obtain ⟨n0, rfl⟩ : ∃ n0, n = n0 + 1 := ⟨n - 1, by omega⟩
  obtain ⟨_, _, hq⟩ := runLoop_fail_spec net unit d t
    (update_task_with_retry net 0).2 msg ht n0 0
    (fun j _ hj2 => hfail j (by omega))
  simp only [Nat.zero_add] at hq
  refine ⟨?_, rfl, rfl, rfl, rfl⟩
  rw [hr]
  simp [hq]

/-- C8 witness: concrete instance of the amended theorem. -/
theorem c8_failed_update_witness :
    ("t" : String) ≠ "" ∧
    (failedRequest "t" "boom").duration = none :=
  ⟨by decide,
   (c8_failed_update_amended (fun _ => true) (fun _ => Outcome.err "boom") 7
     "t" [] (some 1) (fun _ => "boom") 1 (by decide) rfl rfl
     (fun j _ => rfl) (by decide)).2.2.2.1⟩

/-- C9: a heartbeat (update_worker request carrying worker_id and
memory_available) leaves every static capability field of the worker row
unchanged (platform, cpu_count, cpu_freq, memory_total, gpu_info, and the id
itself), and when the row matches the worker_id it sets memory_available to
the reported value. Timestamps are database-managed and outside the model. -/
theorem c9_heartbeat_frame (w : WorkerRow) (wid : String) (mem : Int) :
    ((api_update_worker w (heartbeat_request wid mem)).1.platform = w.platform ∧
     (api_update_worker w (heartbeat_request wid mem)).1.cpu_count = w.cpu_count ∧
     (api_update_worker w (heartbeat_request wid mem)).1.cpu_freq = w.cpu_freq ∧
     (api_update_worker w (heartbeat_request wid mem)).1.memory_total =
       w.memory_total ∧
     (api_update_worker w (heartbeat_request wid mem)).1.gpu_info = w.gpu_info ∧
     (api_update_worker w (heartbeat_request wid mem)).1.id = w.id) ∧
    (api_update_worker w (heartbeat_request w.id mem)).1.memory_available =
      mem := by
  constructor
  · by_cases h : w.id = wid <;>
      simp [api_update_worker, models_update_worker, update_worker_kwargs,
        heartbeat_request, applyWorkerField, h]
  · simp [api_update_worker, models_update_worker, update_worker_kwargs,
      heartbeat_request, applyWorkerField]

/-- C10 counterexample: the claim states only present and truthy fields are
written, but duration is filtered with an is-not-None check, so a present
falsy duration of 0 is written: it overwrites a stored duration of 5. -/
theorem c10_counterexample_zero_duration_written :
    ((api_update_task { insert_task "t" "p" "test" with duration := some 5 }
        ⟨"t", none, none, some 0, none, none, none⟩).1).duration = some 0 ∧
    (some (0 : Int)) ≠ some 5 := by
  exact ⟨by decide, by decide⟩

/-- C10 (amended: status, error_msg and task_result are filtered by Python
truthiness, so empty values leave those fields unchanged and a request with
only task_id causes no store write at all; duration and retry_time however
are filtered only by presence, so present zero values are written): empty
string status and error_msg and empty dict task_result build no kwargs and
models.update_task returns without a write; a present duration or retry_time
is always written, whatever its value. -/
theorem c10_update_filtering_amended (t : Task) (tid : String) (v : Int) :
    api_update_task t (emptyUpdate tid) = (t, false) ∧
    api_update_task t ⟨tid, some "", none, none, some "", none, some []⟩ =
      (t, false) ∧
    update_task_kwargs ⟨tid, none, none, some v, none, none, none⟩ =
      [TaskField.fduration v] ∧
    (api_update_task t ⟨t.id, none, none, some v, none, none, none⟩).1.duration =
      some v ∧
    update_task_kwargs ⟨tid, none, none, none, none, some v, none⟩ =
      [TaskField.fretry v] := by
  refine ⟨?_, ?_, ?_, ?_, ?_⟩ <;>
    simp [api_update_task, models_update_task, update_task_kwargs, emptyUpdate,
      applyField]

end Workers
